import Mathlib

/-!
# Verification of the stealth-browser behavioral engine

Shallow embedding of the behavioral-simulation and session/fault-recovery
layers of the repository (`human-behavior.ts` / the MCP server file and
`browser-profiles.ts`), together with proofs of the specification claims.

Randomness: every call to `Math.random()` in the source is modelled as an
explicit input parameter (a draw in `[0, 1)`); theorems quantify over all
draws, constrained to that interval where the claim needs it.
Numbers are modelled as `ℚ` where the code only does field arithmetic and
flooring, and as `ℝ` where the code uses transcendental functions
(`Math.sin`, `Math.log`, `Math.cos`, `Math.sqrt`).
-/

namespace StealthBrowser

/-! ## ProfileCatalog (`browser-profiles.ts`) -/

/-- A fixed fingerprint profile, one entry of `browserProfiles`.
Viewport is flattened into width/height; `deviceScaleFactor` is a rational
(the catalog holds the value 2.625). -/
structure BrowserProfile where
  userAgent : String
  viewportWidth : Nat
  viewportHeight : Nat
  locale : String
  timezone : String
  platform : String
  webglVendor : Option String
  webglRenderer : Option String
  acceptLanguage : String
  deviceScaleFactor : ℚ
  colorDepth : Nat
  hasTouch : Bool
  deriving Repr, DecidableEq

/-- The five catalog entries of `browserProfiles` in source order. -/
def browserProfiles : List BrowserProfile :=
  [ { userAgent := "Mozilla/5.0 (Windows NT 10.0; Win64; x64) AppleWebKit/537.36 (KHTML, like Gecko) Chrome/136.0.7103.25 Safari/537.36"
    , viewportWidth := 1920, viewportHeight := 1080
    , locale := "en-US", timezone := "America/New_York", platform := "Win32"
    , webglVendor := some "Google Inc. (Intel)"
    , webglRenderer := some "ANGLE (Intel, Intel(R) UHD Graphics Direct3D11 vs_5_0 ps_5_0, D3D11)"
    , acceptLanguage := "en-US,en;q=0.9"
    , deviceScaleFactor := 1, colorDepth := 24, hasTouch := false }
  , { userAgent := "Mozilla/5.0 (Windows NT 10.0; Win64; x64; rv:123.0) Gecko/20100101 Firefox/123.0"
    , viewportWidth := 1680, viewportHeight := 1050
    , locale := "en-GB", timezone := "Europe/London", platform := "Win32"
    , webglVendor := some "Mozilla", webglRenderer := some "Mozilla"
    , acceptLanguage := "en-GB,en;q=0.9,de;q=0.8"
    , deviceScaleFactor := 1, colorDepth := 24, hasTouch := false }
  , { userAgent := "Mozilla/5.0 (Macintosh; Intel Mac OS X 10_15_7) AppleWebKit/605.1.15 (KHTML, like Gecko) Version/17.0 Safari/605.1.15"
    , viewportWidth := 2560, viewportHeight := 1600
    , locale := "fr-FR", timezone := "Europe/Paris", platform := "MacIntel"
    , webglVendor := some "Apple Inc.", webglRenderer := some "Apple GPU"
    , acceptLanguage := "fr-FR,fr;q=0.9,en-US;q=0.8,en;q=0.7"
    , deviceScaleFactor := 2, colorDepth := 30, hasTouch := false }
  , { userAgent := "Mozilla/5.0 (iPad; CPU OS 17_4 like Mac OS X) AppleWebKit/605.1.15 (KHTML, like Gecko) Version/17.0 Mobile/15E148 Safari/604.1"
    , viewportWidth := 1024, viewportHeight := 1366
    , locale := "it-IT", timezone := "Europe/Rome", platform := "iPad"
    , webglVendor := none, webglRenderer := none
    , acceptLanguage := "it-IT,it;q=0.9,en-US;q=0.8,en;q=0.7"
    , deviceScaleFactor := 2, colorDepth := 24, hasTouch := true }
  , { userAgent := "Mozilla/5.0 (Linux; Android 14; SM-G998B) AppleWebKit/537.36 (KHTML, like Gecko) Chrome/136.0.7103.25 Mobile Safari/537.36"
    , viewportWidth := 412, viewportHeight := 915
    , locale := "de-DE", timezone := "Europe/Berlin", platform := "Linux armv8l"
    , webglVendor := some "Google Inc."
    , webglRenderer := some "ANGLE (Samsung, Mali-G78 MP14, OpenGL ES 3.2 v1.r32p1.9604e17)"
    , acceptLanguage := "de-DE,de;q=0.9,en;q=0.8"
    , deviceScaleFactor := 2625/1000, colorDepth := 24, hasTouch := true }
  ]

/-- The source's `getRandomProfile`: `browserProfiles[Math.floor(Math.random() * length)]`,
with the uniform draw made explicit.  In-range draws always hit an entry. -/
def getRandomProfile (rand : ℚ) : Option BrowserProfile :=
  browserProfiles.get? (Int.toNat ⌊rand * browserProfiles.length⌋)

/-- The source's `getProfileByIndex(index)`: `safeIndex = index % browserProfiles.length`
with the JavaScript `%` (truncated remainder, sign of the dividend,
`Int.tmod`), then the array access `browserProfiles[safeIndex]`.
A negative `safeIndex` yields `undefined` in JavaScript, modelled as
`none`. -/
def getProfileByIndex (index : Int) : Option BrowserProfile :=
  let safeIndex := Int.tmod index (browserProfiles.length : Int)
  if 0 ≤ safeIndex then browserProfiles.get? safeIndex.toNat else none

/-- The specification's reading of `getProfileByIndex`: selects
`catalog[i mod len(catalog)]` with the mathematical (always non-negative)
modulus.  Kept separate from `getProfileByIndex`, which embeds the source,
so the two can be compared. -/
def getProfileByIndexSpec (index : Int) : Option BrowserProfile :=
  browserProfiles.get? (index % (browserProfiles.length : Int)).toNat

/-! ## ExecutionGuard (`safeExecute` in the server file) -/

/-- The observed outcome of one attempt: the `Promise.race` of `fn()`
against the timeout timer either resolves with a value or rejects with an
error message (either the operation's own error or the timer's
`Таймаут запроса после ...ms` error). -/
inductive AttemptOutcome (α : Type) where
  | ok (a : α)
  | err (msg : String)

/-- The process-wide mutable server state touched by `safeExecute`'s
recovery path: `globalBrowser`, `globalPage` (handles modelled as numeric
identities) and `lastSnapshot`. -/
structure ServerState where
  globalBrowser : Option Nat
  globalPage : Option Nat
  lastSnapshot : Option Nat
  deriving Repr, DecidableEq

/-- Whether `needle` occurs contiguously in the character list: checked
at every suffix, as `String.prototype.includes` does. -/
def listContainsSub (needle : List Char) : List Char → Bool
  | [] => needle.isEmpty
  | c :: t => needle.isPrefixOf (c :: t) || listContainsSub needle t

/-- The JavaScript `hay.includes(pat)` on character data. -/
def containsSubstring (hay pat : String) : Bool := listContainsSub pat.data hay.data

/-- The timeout classification in `safeExecute`:
`error.message.includes('Таймаут') || error.message.includes('timed out')`. -/
def isTimeoutMessage (msg : String) : Bool :=
  containsSubstring msg "Таймаут" || containsSubstring msg "timed out"

/-- The timeout branch of `safeExecute`'s catch: if a browser is open,
`await globalBrowser.close()` — when the close resolves (`closeOk`),
null both handles; when it rejects, the inner catch only logs and the
handles stay set.  Afterwards the cached accessibility snapshot is
discarded unconditionally.  (The page handle is nulled only under the
`if (globalBrowser)` guard and only after a successful close, exactly as
in the source.) -/
def cleanupAfterTimeout (closeOk : Bool) (s : ServerState) : ServerState :=
  let s' := if s.globalBrowser.isSome then
    (if closeOk then { s with globalBrowser := none, globalPage := none } else s)
    else s
  { s' with lastSnapshot := none }

/-- The retry loop of `safeExecute`.  `fuel` is the number of remaining
attempts (`retries - attempt`), `attempt` indexes the next invocation of
the operation, `calls` counts invocations made so far.  When the loop
exhausts its attempts it throws `lastError` (or the generic
`Все попытки выполнения запроса неудачны` error when no attempt ran) —
that post-loop throw is the specification's `ExhaustedRetriesError`.
The inter-attempt backoff wait (`1000 * (attempt + 1)` ms) changes no
modelled observable and is elided.  `closeOks n` tells whether the
`globalBrowser.close()` issued during attempt `n`'s recovery (if any)
resolves. -/
def safeExecuteLoop {α : Type} (outcomes : Nat → AttemptOutcome α)
    (closeOks : Nat → Bool) :
    Nat → Nat → Option String → ServerState → Nat → Except String α × ServerState × Nat
  | 0, _, lastError, s, calls =>
    (Except.error (lastError.getD "Все попытки выполнения запроса неудачны"), s, calls)
  | fuel + 1, attempt, _lastError, s, calls =>
    match outcomes attempt with
    | AttemptOutcome.ok a => (Except.ok a, s, calls + 1)
    | AttemptOutcome.err msg =>
      let s' := if isTimeoutMessage msg then cleanupAfterTimeout (closeOks attempt) s else s
      safeExecuteLoop outcomes closeOks fuel (attempt + 1) (some msg) s' (calls + 1)

/-- The call `safeExecute(fn, timeoutMs, retries)` run against server state `s`:
returns the result (value or final thrown error), the final server state,
and the number of times the operation was invoked. -/
def safeExecute {α : Type} (outcomes : Nat → AttemptOutcome α)
    (closeOks : Nat → Bool) (retries : Nat)
    (s : ServerState) : Except String α × ServerState × Nat :=
  safeExecuteLoop outcomes closeOks retries 0 none s 0

/-! ## SessionManager (`getOrCreateBrowserAndPage` in the server file) -/

/-- The session-lifecycle state mutated by `getOrCreateBrowserAndPage`:
the single current browser/page pair (identified by the id the launch
counter `nextId` assigned to it), the set of ids whose browser has been
closed, and the round-robin profile counter `currentProfileIndex`. -/
structure SessionState where
  nextId : Nat
  current : Option Nat
  closed : List Nat
  profileIndex : Nat
  deriving Repr, DecidableEq

/-- The source's `getOrCreateBrowserAndPage(headless, useRandomProfile)`:
picks a profile (random draw or round-robin counter, the counter advancing
`(i + 1) % 5` only in the round-robin case), unconditionally closes any
existing browser (nulling both handles), then launches a fresh
browser/page pair and stores it as the current session.  Returns the
chosen profile, the new session's id, and the new state.  The launch
always succeeds in the model (the source throws `Не удалось создать
браузер или страницу` only if the driver returned null handles). -/
def getOrCreateBrowserAndPage (useRandomProfile : Bool) (rand : ℚ)
    (s : SessionState) : Option BrowserProfile × Nat × SessionState :=
  let profile := if useRandomProfile then getRandomProfile rand
    else getProfileByIndex s.profileIndex
  let profileIndex' := if useRandomProfile then s.profileIndex
    else (s.profileIndex + 1) % 5
  let closed' := match s.current with
    | some b => b :: s.closed
    | none => s.closed
  (profile, s.nextId,
    { nextId := s.nextId + 1, current := some s.nextId, closed := closed',
      profileIndex := profileIndex' })

/-! ## TimingModel (`humanDelay`) -/

/-- The Box-Muller standard-normal deviate used by `humanDelay`:
`Math.sqrt(-2.0 * Math.log(u1)) * Math.cos(2.0 * Math.PI * u2)` from two
uniform draws. -/
noncomputable def boxMuller (u1 u2 : ℝ) : ℝ :=
  Real.sqrt (-2 * Real.log u1) * Real.cos (2 * Real.pi * u2)

/-- The source's `humanDelay(min, max)` (the computed duration, before suspending):
`mean = (min + max) / 2`, `stdDev = (max - min) / 4`,
`delay = Math.round(z0 * stdDev + mean)` (JavaScript rounds half toward
positive infinity, exactly Mathlib's `round`), then the clamp
`Math.max(min, Math.min(max, delay))`. -/
noncomputable def humanDelay (mn mx u1 u2 : ℝ) : ℝ :=
  let mean := (mn + mx) / 2
  let stdDev := (mx - mn) / 4
  let delay : ℝ := (round (boxMuller u1 u2 * stdDev + mean) : ℤ)
  max mn (min mx delay)

/-! ## InputSimulator: typing (`humanType`) -/

/-- The pause-inducing character class of `humanType`'s
`/[\s,.?!;:]/` test.  ECMAScript `\s` matches the ASCII whitespace
(space, tab, newline, carriage return, vertical tab, form feed) together
with the Unicode WhiteSpace and LineTerminator code points: U+00A0,
U+1680, U+2000–U+200A, U+2028, U+2029, U+202F, U+205F, U+3000, U+FEFF. -/
def pauseChars : List Char :=
  [' ', '\t', '\n', '\r', '\x0b', '\x0c',
   '\u00A0', '\u1680', '\u2000', '\u2001', '\u2002', '\u2003', '\u2004',
   '\u2005', '\u2006', '\u2007', '\u2008', '\u2009', '\u200A', '\u2028',
   '\u2029', '\u202F', '\u205F', '\u3000', '\uFEFF',
   ',', '.', '?', '!', ';', ':']

/-- Whether a character triggers the doubled typing pause. -/
def isPauseChar (c : Char) : Bool := pauseChars.contains c

/-- The per-character delay factor: `2.0` for pause-inducing characters,
`1.0` otherwise. -/
def charFactor (c : Char) : ℚ := if isPauseChar c then 2 else 1

/-- The per-invocation typing speed in characters per minute:
`Math.floor(Math.random() * 300) + 200`, i.e. 200–499. -/
def typingSpeed (rand : ℚ) : ℕ := Int.toNat ⌊rand * 300⌋ + 200

/-- Base per-character delay in ms: `60000 / avgTypingSpeed`. -/
def baseDelay (speed : ℕ) : ℚ := 60000 / (speed : ℚ)

/-- The per-character jitter: `(Math.random() * 0.5) + 0.75`, uniform in
`[0.75, 1.25)`. -/
def charVariation (rand : ℚ) : ℚ := rand * (1 / 2) + 3 / 4

/-- The computed per-character delay of `humanType`:
`Math.floor(baseDelay * factor * variation)`.  The subsequent suspension
is `humanDelay(delay, delay + 50)`. -/
def charDelay (speed : ℕ) (c : Char) (rand : ℚ) : ℤ :=
  ⌊baseDelay speed * charFactor c * charVariation rand⌋

/-! ## InputSimulator: pointer movement (`humanMouseMovement`) -/

/-- The jitter envelope at step `i` of a trajectory with `steps` steps:
`Math.sin(progress * Math.PI)` with `progress = i / steps`. -/
noncomputable def jitterFactor (steps i : ℕ) : ℝ :=
  Real.sin ((i : ℝ) / (steps : ℝ) * Real.pi)

/-- One jitter coordinate at step `i`:
`(Math.random() - 0.5) * 20 * jitterFactor`. -/
noncomputable def jitterTerm (steps i : ℕ) (rand : ℝ) : ℝ :=
  (rand - 1 / 2) * 20 * jitterFactor steps i

/-- A bounding box as returned by `element.boundingBox()`. -/
structure Box where
  x : ℝ
  y : ℝ
  width : ℝ
  height : ℝ

/-- One primitive effect issued by a pointer trajectory: a
`page.mouse.move(x, y)` or a `humanDelay(mn, mx)` suspension. -/
inductive MouseEffect where
  | move (x y : ℝ)
  | delay (mn mx : ℝ)

/-- The number of interpolation steps: `Math.floor(Math.random() * 5) + 5`. -/
noncomputable def mouseSteps (rand : ℝ) : ℕ := Int.toNat ⌊rand * 5⌋ + 5

/-- The call `humanMouseMovement(page, element)` as the list of driver effects it
issues.  `box` is the element's `boundingBox()` result (`none` models the
JavaScript `null`); on `none` the function returns at once, issuing
nothing.  Otherwise: random viewport start point, target drawn in the
25–75% core of the box, and `steps + 1` iterations each issuing one
cursor move (linear interpolation plus the sin-enveloped jitter) followed
by a `humanDelay(20, 50)` suspension. -/
noncomputable def humanMouseMovement (box : Option Box)
    (viewportWidth viewportHeight : ℝ) (startRandX startRandY : ℝ)
    (targetRandX targetRandY : ℝ) (stepsRand : ℝ)
    (jitterRands : ℕ → ℝ × ℝ) : List MouseEffect :=
  match box with
  | none => []
  | some b =>
    let startX := startRandX * viewportWidth
    let startY := startRandY * viewportHeight
    let targetX := b.x + b.width * (1 / 4 + targetRandX * (1 / 2))
    let targetY := b.y + b.height * (1 / 4 + targetRandY * (1 / 2))
    let steps := mouseSteps stepsRand
    (List.range (steps + 1)).flatMap fun i =>
      let progress : ℝ := (i : ℝ) / (steps : ℝ)
      let moveX := startX + (targetX - startX) * progress
        + jitterTerm steps i (jitterRands i).1
      let moveY := startY + (targetY - startY) * progress
        + jitterTerm steps i (jitterRands i).2
      [MouseEffect.move moveX moveY, MouseEffect.delay 20 50]

/-! ## InputSimulator: scrolling (`humanScroll`) -/

/-- The number of scroll events: `Math.floor(Math.random() * 3) + 2`. -/
noncomputable def scrollCount (rand : ℝ) : ℕ := Int.toNat ⌊rand * 3⌋ + 2

/-- One event's scroll distance:
`(Math.random() * 0.5 + 0.75) * viewportHeight`. -/
noncomputable def scrollDistance (rand viewportHeight : ℝ) : ℝ :=
  (rand * (1 / 2) + 3 / 4) * viewportHeight

/-- One event's direction: `Math.random() > 0.2 ? 1 : -1` (downward is
`1`, the argument passed to `window.scrollBy` being
`distance * direction`). -/
noncomputable def scrollDirection (rand : ℝ) : ℤ :=
  if 1 / 5 < rand then 1 else -1

/-- The call `humanScroll(page)` as its list of scroll events, each a
(distance, direction) pair; draw `i` feeds event `i`.  The pacing
`humanDelay(500, 1500)` between events changes no modelled observable. -/
noncomputable def humanScroll (countRand : ℝ) (draws : ℕ → ℝ × ℝ)
    (viewportHeight : ℝ) : List (ℝ × ℤ) :=
  (List.range (scrollCount countRand)).map fun i =>
    (scrollDistance (draws i).1 viewportHeight, scrollDirection (draws i).2)

/-! ## InputSimulator: idle scanning (`randomMouseMovements`) -/

/-- The per-iteration movement speed: `Math.random() * 50 + 50`, uniform
in `[50, 100)`; the iteration then suspends with
`humanDelay(speed, speed + 30)`, so it consumes at least `speed` ms. -/
def mouseSpeed (rand : ℚ) : ℚ := rand * 50 + 50

/-- The `while (Date.now() - startTime < duration)` loop of
`randomMouseMovements`, with wall-clock progress made explicit:
`advance n` is the wall-clock time consumed by iteration `n` (its cursor
move plus its `humanDelay` suspension), `elapsed` is
`Date.now() - startTime`, and `n` counts iterations (cursor moves) so
far.  `fuel` bounds the unfolding; `some n` means the loop exited after
`n` iterations within `fuel` unfoldings, `none` that it had not exited
yet. -/
def mouseLoop (duration : ℚ) (advance : ℕ → ℚ) :
    Nat → Nat → ℚ → Option Nat
  | 0, _, _ => none
  | fuel + 1, n, elapsed =>
    if elapsed < duration then
      mouseLoop duration advance fuel (n + 1) (elapsed + advance n)
    else some n

/-! ## Helper lemmas -/

/-- Under the process invariant that a null browser handle comes with a
null page handle, a timeout cleanup whose close resolves leaves every
handle and the snapshot null. -/
theorem cleanupAfterTimeout_eq_clean (s : ServerState)
    (hinv : s.globalBrowser = none → s.globalPage = none) :
    cleanupAfterTimeout true s = ⟨none, none, none⟩ := by
  unfold cleanupAfterTimeout
  cases h : s.globalBrowser with
  | some b => simp [h]
  | none => simp [h, hinv h]

/-- The fully-null server state is a fixed point of the retry loop's
state component, whatever the later close outcomes are. -/
theorem safeExecuteLoop_clean_state {α : Type} (outcomes : Nat → AttemptOutcome α)
    (closeOks : Nat → Bool) (fuel attempt calls : Nat) (lastErr : Option String) :
    (safeExecuteLoop outcomes closeOks fuel attempt lastErr ⟨none, none, none⟩ calls).2.1 =
      (⟨none, none, none⟩ : ServerState) := by
  induction fuel generalizing attempt lastErr calls with
  | zero => rfl
  | succ k ih =>
    unfold safeExecuteLoop
    cases outcomes attempt with
    | ok a => rfl
    | err msg =>
      have hfix : cleanupAfterTimeout (closeOks attempt) ⟨none, none, none⟩
          = (⟨none, none, none⟩ : ServerState) := rfl
      simp only [hfix, ite_self]
      exact ih _ _ _

/-! ## Claim theorems -/

/-- C1: for an operation that throws on every invocation and
`maxRetries = 3`, `safeExecute` invokes the operation exactly 3 times and
the final result is the post-loop failure (the specification's
`ExhaustedRetriesError`) carrying the last observed error — whatever the
recovery close calls do. -/
theorem safeExecute_always_throws_three_attempts {α : Type}
    (msgs : Nat → String) (closeOks : Nat → Bool) (s : ServerState) :
    (safeExecute (fun n => (AttemptOutcome.err (msgs n) : AttemptOutcome α)) closeOks 3 s).1 =
      Except.error (msgs 2) ∧
    (safeExecute (fun n => (AttemptOutcome.err (msgs n) : AttemptOutcome α)) closeOks 3 s).2.2
      = 3 := by
  constructor <;> rfl

/-- C2 counterexample: a timed-out run whose `globalBrowser.close()`
rejects.  The source's inner catch only logs, so the browser and page
handles are left set (`some 1`, `some 2`) after the failing run — only
the cached snapshot was discarded — refuting the claim that both handles
are null after every timeout-classified failure. -/
theorem safeExecute_timeout_close_fail_counterexample :
    (safeExecute
        (fun _ => (AttemptOutcome.err "Таймаут запроса после 30000ms" : AttemptOutcome Nat))
        (fun _ => false) 3 ⟨some 1, some 2, some 3⟩).2.1
      = (⟨some 1, some 2, none⟩ : ServerState) ∧
    ¬ ((safeExecute
        (fun _ => (AttemptOutcome.err "Таймаут запроса после 30000ms" : AttemptOutcome Nat))
        (fun _ => false) 3 ⟨some 1, some 2, some 3⟩).2.1).globalBrowser = none := by
  constructor <;> decide

/-- C2 (amended): for a guarded operation whose failures are all
timeout-classified, `safeExecute` tears the session down provided each
`close()` issued during recovery resolves: starting from any state
satisfying the process invariant (a null browser handle comes with a
null page handle), after the failing run both global handles and the
cached accessibility snapshot are null.  When a `close()` rejects, the
source leaves the handles set and discards only the snapshot. -/
theorem safeExecute_timeout_teardown_amended {α : Type} (msgs : Nat → String)
    (hmsg : ∀ n, isTimeoutMessage (msgs n) = true) (closeOks : Nat → Bool)
    (hclose : ∀ n, closeOks n = true) (retries : Nat) (hr : 1 ≤ retries)
    (s : ServerState) (hinv : s.globalBrowser = none → s.globalPage = none) :
    (safeExecute (fun n => (AttemptOutcome.err (msgs n) : AttemptOutcome α))
        closeOks retries s).2.1 = (⟨none, none, none⟩ : ServerState) := by
  obtain ⟨k, rfl⟩ : ∃ k, retries = k + 1 := ⟨retries - 1, (Nat.succ_pred_eq_of_pos hr).symm⟩
  unfold safeExecute safeExecuteLoop
  simp only [hmsg 0, if_true, hclose 0, cleanupAfterTimeout_eq_clean s hinv]
  exact safeExecuteLoop_clean_state _ _ _ _ _ _

/-- Witness for the amended C2 at a concrete timed-out run: three
attempts all failing with the source's timeout message, every close
resolving, starting from a live session. -/
theorem safeExecute_timeout_teardown_amended_witness :
    (safeExecute
        (fun _ => (AttemptOutcome.err "Таймаут запроса после 30000ms" : AttemptOutcome Nat))
        (fun _ => true) 3 ⟨some 1, some 2, some 3⟩).2.1
      = (⟨none, none, none⟩ : ServerState) :=
  safeExecute_timeout_teardown_amended (fun _ => "Таймаут запроса после 30000ms")
    (fun _ => rfl) (fun _ => true) (fun _ => rfl) 3 (by decide)
    ⟨some 1, some 2, some 3⟩ (by decide)

/-- C4: two consecutive `getOrCreateBrowserAndPage` acquisitions: after
the first call its session is the (only) current one; the second call
closes it before returning, so the first session is closed in the final
state, the returned handles are distinct, and only the second session is
current. -/
theorem acquire_twice_closes_first (u1 u2 : Bool) (r1 r2 : ℚ) (s : SessionState) :
    ((getOrCreateBrowserAndPage u1 r1 s).2.2).current =
        some (getOrCreateBrowserAndPage u1 r1 s).2.1 ∧
    (getOrCreateBrowserAndPage u1 r1 s).2.1 ∈
        ((getOrCreateBrowserAndPage u2 r2 (getOrCreateBrowserAndPage u1 r1 s).2.2).2.2).closed ∧
    (getOrCreateBrowserAndPage u1 r1 s).2.1 ≠
        (getOrCreateBrowserAndPage u2 r2 (getOrCreateBrowserAndPage u1 r1 s).2.2).2.1 ∧
    ((getOrCreateBrowserAndPage u2 r2 (getOrCreateBrowserAndPage u1 r1 s).2.2).2.2).current =
        some (getOrCreateBrowserAndPage u2 r2 (getOrCreateBrowserAndPage u1 r1 s).2.2).2.1 := by
  refine ⟨rfl, ?_, ?_, rfl⟩
  · simp [getOrCreateBrowserAndPage]
  · simp [getOrCreateBrowserAndPage]

/-- C5 counterexample: in the invocation with speed draw 0 (typing speed
200 cpm, base delay 300 ms), the comma with jitter draw 0 gets delay
`⌊300 * 2 * 0.75⌋ = 450` while the letter `a` with jitter draw 0.9 gets
delay `⌊300 * 1 * 1.2⌋ = 360`, and `450 < 1.5 * 360 = 540`: the claimed
≥ 1.5× separation fails. -/
theorem humanType_ratio_counterexample :
    typingSpeed 0 = 200 ∧
    isPauseChar ',' = true ∧ isPauseChar 'a' = false ∧
    charDelay 200 ',' 0 = 450 ∧
    charDelay 200 'a' (9 / 10) = 360 ∧
    ¬ ((3 : ℚ) / 2 * ((charDelay 200 'a' (9 / 10) : ℤ) : ℚ) ≤
        ((charDelay 200 ',' 0 : ℤ) : ℚ)) := by
  have hfc : charFactor ',' = 2 := rfl
  have hfl : charFactor 'a' = 1 := rfl
  refine ⟨by norm_num [typingSpeed], rfl, rfl, ?_, ?_, ?_⟩ <;>
    norm_num [charDelay, baseDelay, charVariation, hfc, hfl]

/-- C5 (amended): the delay factor for a pause-inducing character is
double that of any other character, and within one invocation the
computed delay for a pause character exceeds `6/5` times the computed
delay for a non-pause character minus one (the floor rounding unit) —
but not the claimed `3/2` times. -/
theorem humanType_pause_delay_amended (srand r1 r2 : ℚ) (c cl : Char)
    (h10 : 0 ≤ r1) (h21 : r2 < 1)
    (hc : isPauseChar c = true) (hcl : isPauseChar cl = false) :
    charFactor c = 2 * charFactor cl ∧
    (6 : ℚ) / 5 * ((charDelay (typingSpeed srand) cl r2 : ℤ) : ℚ) - 1
      < ((charDelay (typingSpeed srand) c r1 : ℤ) : ℚ) := by
  have hfc : charFactor c = 2 := by simp [charFactor, hc]
  have hfl : charFactor cl = 1 := by simp [charFactor, hcl]
  refine ⟨by rw [hfc, hfl]; norm_num, ?_⟩
  have hspos : (0 : ℚ) < (typingSpeed srand : ℚ) := by
    have : 200 ≤ typingSpeed srand := Nat.le_add_left 200 _
    exact_mod_cast Nat.lt_of_lt_of_le (by norm_num) this
  have hb : (0 : ℚ) < baseDelay (typingSpeed srand) := by
    unfold baseDelay; positivity
  have hv1 : 3 / 4 ≤ charVariation r1 := by unfold charVariation; linarith
  have hv2 : charVariation r2 < 5 / 4 := by unfold charVariation; linarith
  have h1 : baseDelay (typingSpeed srand) * 2 * charVariation r1 - 1
      < ((charDelay (typingSpeed srand) c r1 : ℤ) : ℚ) := by
    unfold charDelay; rw [hfc]; exact_mod_cast Int.sub_one_lt_floor _
  have h2 : ((charDelay (typingSpeed srand) cl r2 : ℤ) : ℚ)
      ≤ baseDelay (typingSpeed srand) * 1 * charVariation r2 := by
    unfold charDelay; rw [hfl]; exact_mod_cast Int.floor_le _
  have e1 : 0 ≤ baseDelay (typingSpeed srand) * (charVariation r1 - 3 / 4) :=
    mul_nonneg hb.le (by linarith)
  have e2 : 0 < baseDelay (typingSpeed srand) * (5 / 4 - charVariation r2) :=
    mul_pos hb (by linarith)
  nlinarith [h1, h2, e1, e2]

/-- Witness for the amended C5 at the comma/letter pair of the scenario,
with speed draw 0 and jitter draws 0. -/
theorem humanType_pause_delay_amended_witness :
    charFactor ',' = 2 * charFactor 'a' ∧
    (6 : ℚ) / 5 * ((charDelay (typingSpeed 0) 'a' 0 : ℤ) : ℚ) - 1
      < ((charDelay (typingSpeed 0) ',' 0 : ℤ) : ℚ) :=
  humanType_pause_delay_amended 0 0 0 ',' 'a' (by norm_num) (by norm_num) rfl rfl

/-- C6 counterexample: at index `-2`, the JavaScript remainder is `-2`,
so the source's `getProfileByIndex` accesses `browserProfiles[-2]` and
returns `undefined` (`none`), while the claimed `catalog[i mod 5]` would
return the profile at index 3. -/
theorem getProfileByIndex_negative_counterexample :
    getProfileByIndex (-2) ≠ getProfileByIndexSpec (-2) := by decide

/-- C6 (amended): for every non-negative index `i`, `getProfileByIndex i`
is `catalog[i mod len(catalog)]`, and it is periodic with period the
catalog size. -/
theorem getProfileByIndex_nonneg_amended (i : Int) (hi : 0 ≤ i) :
    getProfileByIndex i = getProfileByIndexSpec i ∧
    getProfileByIndex i = getProfileByIndex (i + browserProfiles.length) := by
  have key : ∀ j : Int, 0 ≤ j → getProfileByIndex j = getProfileByIndexSpec j := by
    intro j hj
    unfold getProfileByIndex getProfileByIndexSpec
    rw [Int.tmod_eq_emod hj (by decide)]
    rw [if_pos (Int.emod_nonneg j (by decide))]
  refine ⟨key i hi, ?_⟩
  rw [key i hi, key (i + browserProfiles.length) (by positivity)]
  unfold getProfileByIndexSpec
  rw [Int.add_emod_self]

/-- Witness for the amended C6 at index 7: entry `7 mod 5 = 2` and the
period-5 repetition at index 12. -/
theorem getProfileByIndex_nonneg_amended_witness :
    getProfileByIndex 7 = getProfileByIndexSpec 7 ∧
    getProfileByIndex 7 = getProfileByIndex (7 + browserProfiles.length) :=
  getProfileByIndex_nonneg_amended 7 (by norm_num)

/-- C3: for `min ≤ max` the duration computed by `humanDelay` lies in
`[min, max]` for every pair of uniform draws (whatever deviate Box-Muller
produces), and when `min = max` it equals exactly `min`. -/
theorem humanDelay_range (mn mx u1 u2 : ℝ) (h : mn ≤ mx) :
    mn ≤ humanDelay mn mx u1 u2 ∧ humanDelay mn mx u1 u2 ≤ mx ∧
    (mn = mx → humanDelay mn mx u1 u2 = mn) := by
  refine ⟨le_max_left _ _, max_le h (min_le_left _ _), ?_⟩
  intro he
  subst he
  exact max_eq_left (min_le_left _ _)

/-- Witness for C3 at the source's default bounds 100–500 ms. -/
theorem humanDelay_range_witness :
    (100 : ℝ) ≤ humanDelay 100 500 (1 / 2) (1 / 3) ∧
    humanDelay 100 500 (1 / 2) (1 / 3) ≤ 500 ∧
    ((100 : ℝ) = 500 → humanDelay 100 500 (1 / 2) (1 / 3) = 100) :=
  humanDelay_range 100 500 (1 / 2) (1 / 3) (by norm_num)

/-- If every iteration of the idle-scanning loop advances the clock by at
least 50 ms, then `k + 1` unfoldings suffice once `50 * k` covers the
remaining time. -/
theorem mouseLoop_exits_of_cover (duration : ℚ) (advance : ℕ → ℚ)
    (hadv : ∀ n, 50 ≤ advance n) :
    ∀ (k n : ℕ) (elapsed : ℚ), duration - elapsed ≤ 50 * (k : ℚ) →
      ∃ m, mouseLoop duration advance (k + 1) n elapsed = some m := by
  intro k
  induction k with
  | zero =>
    intro n elapsed hcov
    refine ⟨n, ?_⟩
    unfold mouseLoop
    rw [if_neg (by push_neg; norm_num at hcov; linarith)]
  | succ k ih =>
    intro n elapsed hcov
    unfold mouseLoop
    by_cases hlt : elapsed < duration
    · rw [if_pos hlt]
      refine ih (n + 1) (elapsed + advance n) ?_
      have h50 := hadv n
      push_cast at hcov ⊢
      linarith
    · exact ⟨n, by rw [if_neg hlt]⟩

/-- C9: the idle-scanning loop of `randomMouseMovements` terminates for
every duration: each iteration draws a speed `≥ 50` ms and suspends at
least that long, so under the assumption that every iteration advances
wall-clock time by at least its delay, some finite fuel makes the
`while (Date.now() - startTime < duration)` loop exit after finitely many
iterations. -/
theorem randomMouseMovements_terminates (duration : ℚ) (rands : ℕ → ℚ)
    (hr : ∀ n, 0 ≤ rands n) (advance : ℕ → ℚ)
    (hadv : ∀ n, mouseSpeed (rands n) ≤ advance n) :
    ∃ fuel m, mouseLoop duration advance fuel 0 0 = some m := by
  have h50 : ∀ n, 50 ≤ advance n := by
    intro n
    refine le_trans ?_ (hadv n)
    unfold mouseSpeed
    have := mul_nonneg (hr n) (by norm_num : (0 : ℚ) ≤ 50)
    linarith
  obtain ⟨k, hk⟩ := exists_nat_ge (duration / 50)
  refine ⟨k + 1, ?_⟩
  refine mouseLoop_exits_of_cover duration advance h50 k 0 0 ?_
  rw [div_le_iff₀ (by norm_num : (0 : ℚ) < 50)] at hk
  linarith

/-- Witness for C9: a 100 ms scan whose iterations each advance the clock
by exactly the minimal 50 ms delay. -/
theorem randomMouseMovements_terminates_witness :
    ∃ fuel m, mouseLoop 100 (fun _ => 50) fuel 0 0 = some m :=
  randomMouseMovements_terminates 100 (fun _ => 0) (fun _ => le_refl 0)
    (fun _ => 50) (fun _ => by norm_num [mouseSpeed])

/-- C10: when the element's `boundingBox()` query returns null,
`humanMouseMovement` returns at once: its effect trace is empty — no
cursor-move primitive, no delay — and no error is raised. -/
theorem humanMouseMovement_null_box (vw vh sx sy tx ty sr : ℝ)
    (jr : ℕ → ℝ × ℝ) :
    humanMouseMovement none vw vh sx sy tx ty sr jr = [] := rfl

/-- On the first half of the trajectory the jitter envelope is monotone:
both angles lie in `[0, π/2]` where sine increases. -/
theorem jitterFactor_le_of_le_half (N a b : ℕ) (hab : a ≤ b)
    (hbN : (b : ℝ) / (N : ℝ) ≤ 1 / 2) (hN : 0 < N) :
    jitterFactor N a ≤ jitterFactor N b := by
  unfold jitterFactor
  have hNpos : (0 : ℝ) < (N : ℝ) := Nat.cast_pos.mpr hN
  have hπ := Real.pi_pos
  refine Real.sin_le_sin_of_le_of_le_pi_div_two ?_ ?_ ?_
  · have : (0 : ℝ) ≤ (a : ℝ) / (N : ℝ) * Real.pi := by positivity
    linarith
  · nlinarith
  · gcongr

/-- The jitter envelope is symmetric about the midpoint:
`sin ((N-i)/N · π) = sin (π − i/N · π) = sin (i/N · π)`. -/
theorem jitterFactor_symm (N i : ℕ) (hi : i ≤ N) (hN : 0 < N) :
    jitterFactor N (N - i) = jitterFactor N i := by
  unfold jitterFactor
  have hNne : (N : ℝ) ≠ 0 := Nat.cast_ne_zero.mpr hN.ne'
  have hcast : ((N - i : ℕ) : ℝ) = (N : ℝ) - (i : ℝ) := by
    push_cast [Nat.cast_sub hi]; ring
  rw [hcast, show ((N : ℝ) - (i : ℝ)) / (N : ℝ) * Real.pi
      = Real.pi - (i : ℝ) / (N : ℝ) * Real.pi by field_simp; ring,
    Real.sin_pi_sub]

/-- Among the integer steps `0..N`, the jitter envelope is largest at the
midpoint step `N / 2`. -/
theorem jitterFactor_le_midpoint (N i : ℕ) (hN : 0 < N) (hi : i ≤ N) :
    jitterFactor N i ≤ jitterFactor N (N / 2) := by
  have hNpos : (0 : ℝ) < (N : ℝ) := Nat.cast_pos.mpr hN
  have hm2 : ((N / 2 : ℕ) : ℝ) / (N : ℝ) ≤ 1 / 2 := by
    rw [div_le_div_iff₀ hNpos (by norm_num : (0 : ℝ) < 2)]
    have h2 : (N / 2 : ℕ) * 2 ≤ N := by omega
    calc ((N / 2 : ℕ) : ℝ) * 2 = (((N / 2 : ℕ) * 2 : ℕ) : ℝ) := by push_cast; ring
      _ ≤ (N : ℝ) := Nat.cast_le.mpr h2
      _ = 1 * (N : ℝ) := by ring
  by_cases hcase : i ≤ N / 2
  · exact jitterFactor_le_of_le_half N i (N / 2) hcase hm2 hN
  · push_neg at hcase
    have h1 : jitterFactor N i = jitterFactor N (N - i) := by
      have hsymm := jitterFactor_symm N (N - i) (Nat.sub_le N i) hN
      rwa [Nat.sub_sub_self hi] at hsymm
    rw [h1]
    exact jitterFactor_le_of_le_half N (N - i) (N / 2) (by omega) hm2 hN

/-- C7: in every pointer-movement trajectory the jitter added to the
linear interpolation is exactly 0 at step 0 and at the final step (its
`sin(progress · π)` envelope vanishes there, whatever the uniform draw),
and the sin-derived jitter factor is maximal at the midpoint step. -/
theorem mouseJitter_endpoints_midpoint (steps i : ℕ) (r1 r2 : ℝ)
    (hs : 1 ≤ steps) (hi : i ≤ steps) :
    jitterTerm steps 0 r1 = 0 ∧ jitterTerm steps steps r2 = 0 ∧
    jitterFactor steps i ≤ jitterFactor steps (steps / 2) := by
  have hNne : (steps : ℝ) ≠ 0 := Nat.cast_ne_zero.mpr (by omega)
  refine ⟨?_, ?_, jitterFactor_le_midpoint steps i (by omega) hi⟩
  · unfold jitterTerm jitterFactor
    norm_num
  · unfold jitterTerm jitterFactor
    rw [div_self hNne, one_mul, Real.sin_pi, mul_zero]

/-- Witness for C7 with a 7-step trajectory at step 2, arbitrary draws. -/
theorem mouseJitter_endpoints_midpoint_witness :
    jitterTerm 7 0 (9 / 10) = 0 ∧ jitterTerm 7 7 (1 / 10) = 0 ∧
    jitterFactor 7 2 ≤ jitterFactor 7 (7 / 2) :=
  mouseJitter_endpoints_midpoint 7 2 (9 / 10) (1 / 10) (by norm_num) (by norm_num)

/-- C8: every scroll sequence has between 2 and 4 events; each event's
distance is `(0.75 + rand·0.5) · viewportHeight`, hence of magnitude
between `0.75·viewportHeight` and `1.25·viewportHeight`, with direction
`1` (down) or `-1` (up); and the set of uniform draws in `[0,1)` mapped
to the downward direction has Lebesgue measure `0.8`. -/
theorem humanScroll_shape (countRand : ℝ) (draws : ℕ → ℝ × ℝ) (H : ℝ)
    (hc1 : countRand < 1) (hH : 0 < H)
    (hd : ∀ i, 0 ≤ (draws i).1 ∧ (draws i).1 < 1) :
    2 ≤ (humanScroll countRand draws H).length ∧
    (humanScroll countRand draws H).length ≤ 4 ∧
    (∀ e ∈ humanScroll countRand draws H,
      3 / 4 * H ≤ e.1 ∧ e.1 ≤ 5 / 4 * H ∧ (e.2 = 1 ∨ e.2 = -1)) ∧
    MeasureTheory.volume {r : ℝ | r ∈ Set.Ico (0 : ℝ) 1 ∧ scrollDirection r = 1}
      = ENNReal.ofReal (4 / 5) := by
  have hlen : (humanScroll countRand draws H).length = scrollCount countRand := by
    unfold humanScroll
    rw [List.length_map, List.length_range]
  refine ⟨?_, ?_, ?_, ?_⟩
  · rw [hlen]; exact Nat.le_add_left 2 _
  · rw [hlen]
    have hfl : ⌊countRand * 3⌋ < 3 := Int.floor_lt.mpr (by push_cast; linarith)
    unfold scrollCount
    omega
  · intro e he
    unfold humanScroll at he
    obtain ⟨i, _, rfl⟩ := List.mem_map.mp he
    obtain ⟨hd0, hd1⟩ := hd i
    refine ⟨?_, ?_, ?_⟩
    · unfold scrollDistance
      nlinarith
    · unfold scrollDistance
      nlinarith
    · unfold scrollDirection
      split
      · exact Or.inl rfl
      · exact Or.inr rfl
  · have hset : {r : ℝ | r ∈ Set.Ico (0 : ℝ) 1 ∧ scrollDirection r = 1}
        = Set.Ioo (1 / 5) 1 := by
      ext r
      simp only [Set.mem_setOf_eq, Set.mem_Ico, Set.mem_Ioo]
      constructor
      · rintro ⟨⟨_, hr1⟩, hdir⟩
        refine ⟨?_, hr1⟩
        by_contra hle
        unfold scrollDirection at hdir
        rw [if_neg hle] at hdir
        exact absurd hdir (by decide)
      · rintro ⟨h5, hr1⟩
        refine ⟨⟨by linarith, hr1⟩, ?_⟩
        unfold scrollDirection
        rw [if_pos h5]
    rw [hset, Real.volume_Ioo]
    norm_num

/-- Witness for C8 with count draw `1/2`, constant event draws `1/2`, and
an 800-px viewport. -/
theorem humanScroll_shape_witness :
    2 ≤ (humanScroll (1 / 2) (fun _ => (1 / 2, 1 / 2)) 800).length ∧
    (humanScroll (1 / 2) (fun _ => (1 / 2, 1 / 2)) 800).length ≤ 4 ∧
    (∀ e ∈ humanScroll (1 / 2) (fun _ => (1 / 2, 1 / 2)) 800,
      3 / 4 * 800 ≤ e.1 ∧ e.1 ≤ 5 / 4 * 800 ∧ (e.2 = 1 ∨ e.2 = -1)) ∧
    MeasureTheory.volume {r : ℝ | r ∈ Set.Ico (0 : ℝ) 1 ∧ scrollDirection r = 1}
      = ENNReal.ofReal (4 / 5) :=
  humanScroll_shape (1 / 2) (fun _ => (1 / 2, 1 / 2)) 800 (by norm_num)
    (by norm_num) (fun _ => ⟨by norm_num, by norm_num⟩)

end StealthBrowser
